import Mathlib

/-!
Verification development for the project-vrp delivery-route optimizer.

The repository contains two revisions of the same program:
* `src/src/...` — the later revision (main entry point, route validator);
* `src/delivery-route-optimizer/...` — the earlier revision (with `ors_client.py`).

Distances are modelled over `ℚ` (the Python code works with floats returned by
the routing backend; no floating-point rounding behaviour is relied upon by any
claim).  Stops are identified by their index into `all_coordinates`
(index 0 is the hub), exactly as the Python code indexes its distance matrix;
the per-stop metadata (coordinates, tracking number, zone, address) is an
injective function of that index and plays no role in the control flow that the
claims are about.
-/

/-- Configuration constant `AVG_SPEED_KMH` from `config.py`. -/
def AVG_SPEED_KMH : ℚ := 30

/-- Configuration constant `IDLE_TIME_PER_HOUSE` (minutes) from `config.py`. -/
def IDLE_TIME_PER_HOUSE : ℚ := 6

/-- Embeds `RouteOptimizer.meters_to_km` (src/src/models/route_optimizer.py,
lines 35-37): `return meters / 1000.0`. -/
def meters_to_km (meters : ℚ) : ℚ := meters / 1000

/-- Embeds `RouteOptimizer.calculate_eta` (src/src/models/route_optimizer.py,
lines 39-48): `travel_time = (distance_km / AVG_SPEED_KMH) * 60;
return travel_time + IDLE_TIME_PER_HOUSE`. -/
def calculate_eta (distance_km : ℚ) : ℚ :=
  (distance_km / AVG_SPEED_KMH) * 60 + IDLE_TIME_PER_HOUSE

/-- Embeds the scanning loop shared by both revisions' `find_nearest_point`:
`min_distance = inf; nearest_idx = -1; for idx in L: if idx not in visited:
if d(current, idx) < min_distance: min_distance, nearest_idx = d(current, idx), idx`.
The accumulator `none` stands for the initial `(inf, -1)` state (over `ℚ` every
real distance is `< inf`, so the first unvisited candidate always replaces the
initial state, which the `Option` faithfully captures). -/
def findNearestAux (d : ℕ → ℕ → ℚ) (cur : ℕ) (visited : Finset ℕ) :
    List ℕ → Option (ℚ × ℕ) → Option (ℚ × ℕ)
  | [], acc => acc
  | idx :: rest, acc =>
      if idx ∈ visited then findNearestAux d cur visited rest acc
      else
        match acc with
        | none => findNearestAux d cur visited rest (some (d cur idx, idx))
        | some (m, b) =>
            if d cur idx < m then findNearestAux d cur visited rest (some (d cur idx, idx))
            else findNearestAux d cur visited rest (some (m, b))

/-- Embeds `RouteOptimizer.find_nearest_point` of the src/src revision
(src/src/models/route_optimizer.py, lines 50-71): the scan runs over
`range(len(self.all_coordinates))`, i.e. indices `0, 1, ..., n-1` in ascending
order; per candidate the distance is `self.get_route_distance(current, idx)`,
abstracted here as the pure lookup `d` (the resolved matrix-backed distance
function, constant across the run).  Returns `none` where the Python raises
`ValueError("No unvisited points found")` (`nearest_idx == -1`). -/
def find_nearest_point (d : ℕ → ℕ → ℚ) (n : ℕ) (visited : Finset ℕ) (cur : ℕ) : Option ℕ :=
  (findNearestAux d cur visited (List.range n) none).map Prod.snd

/-- Embeds `RouteOptimizer.find_nearest_point` of the delivery-route-optimizer
revision (delivery-route-optimizer/src/models/route_optimizer.py, lines 20-37):
identical scan except that it runs over `range(1, len(self.all_coordinates))`,
i.e. indices `1, ..., n-1`, and reads `self.distance_matrix[current][idx]`
directly. -/
def dro_find_nearest_point (d : ℕ → ℕ → ℚ) (n : ℕ) (visited : Finset ℕ) (cur : ℕ) :
    Option ℕ :=
  (findNearestAux d cur visited (List.range' 1 (n - 1)) none).map Prod.snd

/-- Embeds the `stop_info` dict appended by the src/src revision's
`optimize_route` (src/src/models/route_optimizer.py, lines 109-121).  The
fields `tracking_num`, `zone`, `address`, `coordinates` and `last_location` are
injective functions of `idx` / `last_idx` (lookups into `customer_data` /
`all_coordinates`) and are represented by those indices. -/
structure StopInfo where
  stop_number : ℕ
  idx : ℕ
  last_idx : ℕ
  distance : ℚ
  distance_from_hub : ℚ
  eta : ℚ
  remaining_stops : ℕ
  remaining_parcels : ℕ
  deriving Repr, DecidableEq

/-- Embeds the `while len(self.visited) < len(self.all_coordinates)` loop of the
src/src revision's `optimize_route` (src/src/models/route_optimizer.py, lines
95-124), parameterised by the resolved distance function `d` and
`n = len(all_coordinates)`.  `none` models a raised exception
(`find_nearest_point`'s `ValueError` propagating through the method's
re-raising `except` block).  The `fuel` argument is an upper bound on the
number of remaining iterations; every theorem below invokes the loop with
sufficient fuel (the Python loop needs exactly `n - len(visited)` iterations),
so the fuel-exhaustion branch is never taken on the runs the theorems are
about. -/
def optimizeLoop (d : ℕ → ℕ → ℚ) (n : ℕ) :
    ℕ → Finset ℕ → ℕ → Option (List StopInfo)
  | 0, visited, _ => if visited.card < n then none else some []
  | fuel + 1, visited, cur =>
      if visited.card < n then
        match find_nearest_point d n visited cur with
        | none => none
        | some j =>
            let visited2 := insert j visited
            let current_distance := d cur j
            let hub_distance := d 0 j
            let step : StopInfo :=
              { stop_number := visited2.card - 1
                idx := j
                last_idx := cur
                distance := current_distance
                distance_from_hub := hub_distance
                eta := calculate_eta (meters_to_km current_distance)
                remaining_stops := n - visited2.card
                remaining_parcels := n - visited2.card }
            match optimizeLoop d n fuel visited2 j with
            | none => none
            | some rest => some (step :: rest)
      else some []

/-- Embeds the src/src revision's `optimize_route`
(src/src/models/route_optimizer.py, lines 85-131): it first resets
`self.current_location = 0` and `self.visited = {0}` (lines 92-93) and then
runs the greedy loop; `n` is `len(self.all_coordinates)` (one hub plus N
stops). -/
def optimize_route (d : ℕ → ℕ → ℚ) (n : ℕ) : Option (List StopInfo) :=
  optimizeLoop d n n {0} 0

/-- Embeds a call to the src/src revision's `optimize_route` on a builder whose
instance state (`self.visited`, `self.current_location`) currently holds
`(visited0, cur0)`: lines 92-93 overwrite that state with `0` / `{0}` before
the loop, so the incoming state is discarded. -/
def src_optimize_route_call (d : ℕ → ℕ → ℚ) (n : ℕ)
    (_visited0 : Finset ℕ) (_cur0 : ℕ) : Option (List StopInfo) :=
  optimize_route d n

/-- Embeds one iteration of the src/src greedy loop acting on the mutable state
`(self.visited, self.current_location)`: select the nearest unvisited index,
add it to `visited` and move `current` there; when `find_nearest_point` finds
no candidate the state is left unchanged (the Python loop would have stopped or
raised before this point). -/
def greedyIter (d : ℕ → ℕ → ℚ) (n : ℕ) (st : Finset ℕ × ℕ) : Finset ℕ × ℕ :=
  match find_nearest_point d n st.1 st.2 with
  | some j => (insert j st.1, j)
  | none => st

/-- State of `self.visited` after `k` iterations of the src/src greedy loop,
starting from the reset state `visited = {0}`, `current = 0`. -/
def visitedAfter (d : ℕ → ℕ → ℚ) (n : ℕ) (k : ℕ) : Finset ℕ :=
  ((greedyIter d n)^[k] ({0}, 0)).1

/-- Embeds the `while` loop of the delivery-route-optimizer revision's
`optimize_route` (delivery-route-optimizer/src/models/route_optimizer.py,
lines 46-73) together with the builder state `(self.visited,
self.current_location)` it mutates.  The emitted route records are projected to
the chosen stop index (`next_idx`), which determines the ordered stop sequence
the claims compare.  Unlike the src/src revision this loop starts from the
state left in the instance attributes — `optimize_route` here never resets
them. -/
def dro_optimizeLoop (d : ℕ → ℕ → ℚ) (n : ℕ) :
    ℕ → Finset ℕ → ℕ → Option (List ℕ) × (Finset ℕ × ℕ)
  | 0, visited, cur => (if visited.card < n then none else some [], (visited, cur))
  | fuel + 1, visited, cur =>
      if visited.card < n then
        match dro_find_nearest_point d n visited cur with
        | none => (none, (visited, cur))
        | some j =>
            match dro_optimizeLoop d n fuel (insert j visited) j with
            | (none, st) => (none, st)
            | (some rest, st) => (some (j :: rest), st)
      else (some [], (visited, cur))

/-- Embeds a call to the delivery-route-optimizer revision's `optimize_route`
on a builder whose instance state is `st = (visited, current)`: the method
fetches the (unchanged) matrix and runs the greedy loop directly on the
persisted state, returning the emitted stop sequence and the builder state
after the call. -/
def dro_optimize_route (d : ℕ → ℕ → ℚ) (n : ℕ) (st : Finset ℕ × ℕ) :
    Option (List ℕ) × (Finset ℕ × ℕ) :=
  dro_optimizeLoop d n n st.1 st.2

/-- Coordinate as handled by the client: a `(longitude, latitude)` pair. -/
def Coord : Type := ℚ × ℚ

instance : DecidableEq Coord := instDecidableEqProd

/-- Response of the ORS matrix endpoint, holding the table for each metric the
backend can serve.  The live `openrouteservice` backend returns the key
`durations` with travel times and the key `distances` with travel distances in
meters; which keys are present depends on the `metrics` argument of the
request. -/
structure MatrixResponse where
  durations : List (List ℚ)
  distances : List (List ℚ)

/-- Matrix backend abstraction: `b locations metrics` is the response of
`self.client.distance_matrix(locations=..., metrics=...)`. -/
def Backend : Type := List Coord → List String → MatrixResponse

/-- Embeds `ORSClient._request_matrix`
(delivery-route-optimizer/src/utils/ors_client.py, lines 64-71): it calls
`self.client.distance_matrix(locations=coords, profile=self.profile,
metrics=['duration'], validate=False)` and returns `matrix.get('durations', [])`
— note that it requests the `duration` metric and extracts the `durations`
table. -/
def request_matrix (b : Backend) (coords : List Coord) : List (List ℚ) :=
  (b coords ["duration"]).durations

/-- Configured maximum batch side `self.max_batch = 45`
(delivery-route-optimizer/src/utils/ors_client.py, line 20). -/
def max_batch : ℕ := 45

/-- Embeds one iteration of the block loop in `ORSClient._process_large_matrix`
(delivery-route-optimizer/src/utils/ors_client.py, lines 77-80):
`batch = coordinates[i:min(i + self.max_batch, n)]`;
`sub_matrix = self._request_matrix(batch)`;
`result[i:i+len(batch), i:i+len(batch)] = sub_matrix`.  The numpy matrix is
modelled as a function of the cell indices; the block assignment overwrites the
cells of the block square and leaves every other cell as it was. -/
def write_block (b : Backend) (coords : List Coord) (i : ℕ) (m : ℕ → ℕ → ℚ) :
    ℕ → ℕ → ℚ :=
  let batch := (coords.drop i).take max_batch
  let sub := request_matrix b batch
  fun r c =>
    if i ≤ r ∧ r < i + batch.length ∧ i ≤ c ∧ c < i + batch.length then
      (sub.getD (r - i) []).getD (c - i) 0
    else m r c

/-- Embeds `ORSClient._process_large_matrix`
(delivery-route-optimizer/src/utils/ors_client.py, lines 73-82):
`result = np.zeros((n, n))`, then for `i in range(0, n, self.max_batch)` the
block square at `i` is filled from a sub-request; `range(0, n, 45)` is the list
of multiples of 45 below `n`. -/
def process_large_matrix (b : Backend) (coords : List Coord) : ℕ → ℕ → ℚ :=
  ((List.range coords.length).filter (fun i => i % max_batch = 0)).foldl
    (fun m i => write_block b coords i m) (fun _ _ => 0)

/-- Embeds the per-coordinate bound check of `ORSClient._validate_coordinates`
(delivery-route-optimizer/src/utils/ors_client.py, lines 26-35):
`124.5 <= lon <= 126.5 and 6.0 <= lat <= 8.5`. -/
def valid_coord (p : Coord) : Bool :=
  decide (124.5 ≤ p.1 ∧ p.1 ≤ 126.5 ∧ 6 ≤ p.2 ∧ p.2 ≤ 8.5)

/-- Embeds `ORSClient._validate_coordinates`: all coordinates must pass the
bound check. -/
def validate_coordinates (coords : List Coord) : Bool :=
  coords.all valid_coord

/-- Embeds `ORSClient.get_distance_matrix`
(delivery-route-optimizer/src/utils/ors_client.py, lines 47-62): validation
failure raises (`.error`); at most `max_batch` coordinates go through a single
`_request_matrix` call; larger inputs go through `_process_large_matrix`.  The
returned python list-of-lists matrix is read through its cell lookup
(`matrix[r][c]`), modelled as a function of the two indices. -/
def get_distance_matrix (b : Backend) (coords : List Coord) :
    Except String (ℕ → ℕ → ℚ) :=
  if ¬ validate_coordinates coords then
    .error "Coordinates outside Davao City bounds"
  else if coords.length ≤ max_batch then
    .ok (fun r c => ((request_matrix b coords).getD r []).getD c 0)
  else
    .ok (process_large_matrix b coords)

/-- Decides whether cell `(r, c)` of an `n`-sized request lies inside one of
the fetched block squares of `_process_large_matrix`: some block start
`i ∈ range(0, n, 45)` has both `r` and `c` inside `[i, i + len(batch_i))`,
where `len(batch_i) = min 45 (n - i)`. -/
def in_fetched_block (n r c : ℕ) : Bool :=
  ((List.range n).filter (fun i => i % max_batch = 0)).any (fun i =>
    decide (i ≤ r) && decide (r < i + min max_batch (n - i)) &&
    decide (i ≤ c) && decide (c < i + min max_batch (n - i)))

/-- Embeds `RouteOptimizer.get_route_distance` of the src/src revision
(src/src/models/route_optimizer.py, lines 73-83).  `query i j` models the
`try` block: the live `self.ors_client.get_route_details(...)` call together
with the extraction
`route['features'][0]['properties']['segments'][0]['distance']`; any exception
in it is caught and the method falls back to
`self.distance_matrix[start_idx][end_idx]`.  `matrix = none` models
`self.distance_matrix` still being `None`, in which case the subscript in the
`except` handler raises a `TypeError` that propagates. -/
def get_route_distance (query : ℕ → ℕ → Except String ℚ)
    (matrix : Option (ℕ → ℕ → ℚ)) (start_idx end_idx : ℕ) : Except String ℚ :=
  match query start_idx end_idx with
  | .ok v => .ok v
  | .error _ =>
      match matrix with
      | some m => .ok (m start_idx end_idx)
      | none => .error "TypeError: NoneType object is not subscriptable"

/-- Constant `self.AVERAGE_SPEED = 30` (km/h) of `RouteValidator.__init__`
(src/src/utils/route_validator.py, line 18). -/
def AVERAGE_SPEED : ℚ := 30

/-- Constant `self.SERVICE_TIME = 4` (minutes) of `RouteValidator.__init__`
(src/src/utils/route_validator.py, line 19). -/
def SERVICE_TIME : ℚ := 4

/-- Oracle for `self.ors_client.get_route_details(a, b)` followed by the
extraction `route['features'][0]['properties']['segments'][0]['distance']`;
`.error` models any exception raised by the request or the extraction. -/
def RouteOracle : Type := Coord → Coord → Except String ℚ

/-- Value rounded to 4 decimal places, modelling `round(x, 4)` in
`calculate_extended_metrics` (src/src/utils/route_validator.py, line 137).
Exact four-decimal midpoints round here by the round-half-up convention where
Python rounds half to even; no claim depends on midpoint behaviour. -/
def round4 (q : ℚ) : ℚ := (round (q * 10000) : ℤ) / 10000

/-- Embeds `RouteValidator.calculate_metrics`
(src/src/utils/route_validator.py, lines 100-124): walk the route from the
hub accumulating `total_distance` and `total_time`
(`travel_time = (distance / 1000) * (60 / self.AVERAGE_SPEED)` plus
`self.SERVICE_TIME` per stop), then add the hub-return leg (distance and
travel time, no service time).  Iterating over `None` (`for stop in route`)
raises a `TypeError`, modelled by the `none` case. -/
def calculate_metrics (o : RouteOracle) (hub : Coord) :
    Option (List Coord) → Except String (ℚ × ℚ)
  | none => .error "TypeError: NoneType object is not iterable"
  | some route => do
      let res ← route.foldlM
        (fun (acc : ℚ × ℚ × Coord) s => do
          let dist ← o acc.2.2 s
          pure (acc.1 + dist,
                acc.2.1 + (dist / 1000) * (60 / AVERAGE_SPEED) + SERVICE_TIME, s))
        (0, 0, hub)
      let rd ← o res.2.2 hub
      pure (res.1 + rd, res.2.1 + (rd / 1000) * (60 / AVERAGE_SPEED))

/-- Embeds the redundancy count of `RouteValidator.calculate_extended_metrics`
(src/src/utils/route_validator.py, lines 131-140): count stops whose
4-decimal-rounded coordinate already occurred earlier in the route. -/
def redundant_paths (route : List Coord) : ℕ :=
  (route.foldl
    (fun (acc : Finset Coord × ℕ) s =>
      let area : Coord := (round4 s.1, round4 s.2)
      if area ∈ acc.1 then (insert area acc.1, acc.2 + 1)
      else (insert area acc.1, acc.2))
    (∅, 0)).2

/-- Extended metrics record returned by
`RouteValidator.calculate_extended_metrics`. -/
structure ExtMetrics where
  num_stops : ℕ
  avg_time_per_stop : ℚ
  redundant : ℕ

/-- Embeds `RouteValidator.calculate_extended_metrics`
(src/src/utils/route_validator.py, lines 126-146); `len(None)` raises a
`TypeError`, modelled by the `none` case. -/
def calculate_extended_metrics (route : Option (List Coord)) (total_time : ℚ) :
    Except String ExtMetrics :=
  match route with
  | none => .error "TypeError: object of type NoneType has no len"
  | some r =>
      .ok { num_stops := r.length
            avg_time_per_stop := if r.length > 0 then total_time / r.length else 0
            redundant := redundant_paths r }

/-- First element of the distance-sorted candidate list, i.e.
`sorted(distances, key=lambda x: x['distance'])[0]` in
`get_nearest_neighbor_route_detailed` (src/src/utils/route_validator.py, lines
232-244): Python's sort is stable, so the head of the sorted list is the
earliest candidate attaining the minimal distance, which this strictly-smaller
fold selects. -/
def firstMinBy : List (ℚ × Coord) → Option (ℚ × Coord)
  | [] => none
  | x :: xs => some (xs.foldl (fun acc y => if y.1 < acc.1 then y else acc) x)

/-- Embeds the `while unvisited_stops:` loop of
`RouteValidator.get_nearest_neighbor_route_detailed`
(src/src/utils/route_validator.py, lines 210-256): query the oracle for every
remaining stop (any exception propagates), pick the nearest (earliest on
ties), append it to the route, move there and remove it from the remaining
list.  `fuel` bounds the iteration count; the loop removes one stop per
iteration so `stops.length` fuel always suffices. -/
def nnLoop (o : RouteOracle) : ℕ → Coord → List Coord → Except String (List Coord)
  | 0, _, unvisited => if unvisited.isEmpty then .ok [] else .error "fuel exhausted"
  | fuel + 1, cur, unvisited =>
      if unvisited.isEmpty then .ok []
      else do
        let dists ← unvisited.mapM (fun s => o cur s)
        match firstMinBy (dists.zip unvisited) with
        | none => .error "IndexError: list index out of range"
        | some sel => do
            let rest ← nnLoop o fuel sel.2 (unvisited.erase sel.2)
            pure (sel.2 :: rest)

/-- Embeds `RouteValidator.get_nearest_neighbor_route_detailed`
(src/src/utils/route_validator.py, lines 196-256).  The method builds `route`
in its loop but ends without a `return` statement, so on normal completion it
returns `None` — hence the successful result is always `none`, while oracle
exceptions raised inside the loop propagate (`.error`). -/
def get_nearest_neighbor_route_detailed (o : RouteOracle) (hub : Coord)
    (stops : List Coord) : Except String (Option (List Coord)) :=
  (nnLoop o stops.length hub stops).map (fun _ => none)

/-- Row of the table built by `RouteValidator.compare_methods`
(src/src/utils/route_validator.py, lines 164-175): method name, distance (km),
time, stop count, average time per stop, redundancy, and
`metrics.get('diff_from_optimal', 'N/A')` — the `% from Optimal` column. -/
structure VRow where
  method : String
  distance_km : ℚ
  time : ℚ
  num_stops : ℕ
  avg_time_per_stop : ℚ
  redundancy : ℕ
  pct_from_optimal : String
  deriving DecidableEq

/-- Embeds the `try` body of `RouteValidator.compare_methods`
(src/src/utils/route_validator.py, lines 150-190).  The body analyses exactly
one method: it builds `nn_route = self.get_nearest_neighbor_route_detailed()`,
scores it with `calculate_metrics` and `calculate_extended_metrics`, stores the
single `"Nearest Neighbor"` entry of `metrics_by_method`, and emits one result
row per entry with `metrics.get('diff_from_optimal', 'N/A')` in the last
column — no code path ever sets `diff_from_optimal`.  The class's
`get_random_route`, `get_euclidean_route` and `solve_ortools` methods are never
referenced here. -/
def compareBody (o : RouteOracle) (hub : Coord) (stops : List Coord) :
    Except String (List VRow) :=
  match get_nearest_neighbor_route_detailed o hub stops with
  | .error e => .error e
  | .ok nn_route =>
      match calculate_metrics o hub nn_route with
      | .error e => .error e
      | .ok met =>
          match calculate_extended_metrics nn_route met.2 with
          | .error e => .error e
          | .ok ext =>
              .ok [{ method := "Nearest Neighbor"
                     distance_km := met.1 / 1000
                     time := met.2
                     num_stops := ext.num_stops
                     avg_time_per_stop := ext.avg_time_per_stop
                     redundancy := ext.redundant
                     pct_from_optimal := "N/A" }]

/-- Embeds `RouteValidator.compare_methods`
(src/src/utils/route_validator.py, lines 148-194): the whole body runs inside
`try`; any exception is logged and the method returns `[]`
("Return empty list instead of None", line 194). -/
def compare_methods (o : RouteOracle) (hub : Coord) (stops : List Coord) :
    List VRow :=
  match compareBody o hub stops with
  | .ok rows => rows
  | .error _ => []

lemma findNearestAux_some_isSome (d : ℕ → ℕ → ℚ) (cur : ℕ) (visited : Finset ℕ) :
    ∀ (L : List ℕ) (p : ℚ × ℕ), (findNearestAux d cur visited L (some p)).isSome := by
  intro L
  induction L with
  | nil => intro p; simp [findNearestAux]
  | cons a t ih =>
      intro p
      by_cases ha : a ∈ visited
      · simpa [findNearestAux, ha] using ih p
      · obtain ⟨m, b⟩ := p
        by_cases hlt : d cur a < m
        · simpa [findNearestAux, ha, hlt] using ih (d cur a, a)
        · simpa [findNearestAux, ha, hlt] using ih (m, b)

lemma findNearestAux_none_isSome (d : ℕ → ℕ → ℚ) (cur : ℕ) (visited : Finset ℕ) :
    ∀ (L : List ℕ), (∃ i ∈ L, i ∉ visited) →
      (findNearestAux d cur visited L none).isSome := by
  intro L
  induction L with
  | nil => rintro ⟨i, hi, -⟩; cases hi
  | cons a t ih =>
      rintro ⟨i, hi, hiv⟩
      by_cases ha : a ∈ visited
      · rcases List.mem_cons.mp hi with rfl | hit
        · exact absurd ha hiv
        · simpa [findNearestAux, ha] using ih ⟨i, hit, hiv⟩
      · simpa [findNearestAux, ha] using
          findNearestAux_some_isSome d cur visited t (d cur a, a)

lemma findNearestAux_none_eq (d : ℕ → ℕ → ℚ) (cur : ℕ) (visited : Finset ℕ) :
    ∀ (L : List ℕ), (∀ i ∈ L, i ∈ visited) →
      findNearestAux d cur visited L none = none := by
  intro L
  induction L with
  | nil => intro _; rfl
  | cons a t ih =>
      intro h
      have ha : a ∈ visited := h a (List.mem_cons_self a t)
      simpa [findNearestAux, ha] using ih fun i hi => h i (List.mem_cons_of_mem a hi)

lemma findNearestAux_spec (d : ℕ → ℕ → ℚ) (cur : ℕ) (visited : Finset ℕ) :
    ∀ (C : List ℕ) (m : ℚ) (b : ℕ), C.Pairwise (· < ·) → (∀ i ∈ C, b < i) →
      b ∉ visited → m = d cur b →
      ∃ M B, findNearestAux d cur visited C (some (m, b)) = some (M, B) ∧
        B ∉ visited ∧ M = d cur B ∧ (B = b ∨ B ∈ C) ∧
        ∀ i, (i = b ∨ (i ∈ C ∧ i ∉ visited)) →
          M < d cur i ∨ (M = d cur i ∧ B ≤ i) := by
  intro C
  induction C with
  | nil =>
      intro m b _ _ hb hm
      refine ⟨m, b, by simp [findNearestAux], hb, hm, Or.inl rfl, ?_⟩
      rintro i (rfl | ⟨hi, -⟩)
      · exact Or.inr ⟨hm, le_refl _⟩
      · cases hi
  | cons c t ih =>
      intro m b hpw hblt hb hm
      obtain ⟨hct, ht⟩ := List.pairwise_cons.mp hpw
      by_cases hc : c ∈ visited
      · obtain ⟨M, B, heq, h1, h2, h3, h4⟩ :=
          ih m b ht (fun i hi => hblt i (List.mem_cons_of_mem c hi)) hb hm
        refine ⟨M, B, by simpa [findNearestAux, hc] using heq, h1, h2, ?_, ?_⟩
        · rcases h3 with rfl | h3
          · exact Or.inl rfl
          · exact Or.inr (List.mem_cons_of_mem c h3)
        · rintro i (rfl | ⟨hi, hiv⟩)
          · exact h4 _ (Or.inl rfl)
          · rcases List.mem_cons.mp hi with rfl | hit
            · exact absurd hc hiv
            · exact h4 _ (Or.inr ⟨hit, hiv⟩)
      · by_cases hlt : d cur c < m
        · obtain ⟨M, B, heq, h1, h2, h3, h4⟩ := ih (d cur c) c ht hct hc rfl
          refine ⟨M, B, by simpa [findNearestAux, hc, hlt] using heq, h1, h2, ?_, ?_⟩
          · rcases h3 with rfl | h3
            · exact Or.inr (List.mem_cons_self _ _)
            · exact Or.inr (List.mem_cons_of_mem _ h3)
          · rintro i (rfl | ⟨hi, hiv⟩)
            · refine Or.inl ?_
              have hcb : d cur c < d cur i := hm ▸ hlt
              rcases h4 c (Or.inl rfl) with h | ⟨h, -⟩
              · exact h.trans hcb
              · exact h ▸ hcb
            · rcases List.mem_cons.mp hi with rfl | hit
              · exact h4 _ (Or.inl rfl)
              · exact h4 _ (Or.inr ⟨hit, hiv⟩)
        · obtain ⟨M, B, heq, h1, h2, h3, h4⟩ :=
            ih m b ht (fun i hi => hblt i (List.mem_cons_of_mem c hi)) hb hm
          refine ⟨M, B, by simpa [findNearestAux, hc, hlt] using heq, h1, h2, ?_, ?_⟩
          · rcases h3 with rfl | h3
            · exact Or.inl rfl
            · exact Or.inr (List.mem_cons_of_mem c h3)
          · rintro i (rfl | ⟨hi, hiv⟩)
            · exact h4 _ (Or.inl rfl)
            · rcases List.mem_cons.mp hi with rfl | hit
              · have hmc : m ≤ d cur i := not_lt.mp hlt
                rcases h4 b (Or.inl rfl) with h | ⟨hEq, hBb⟩
                · exact Or.inl (lt_of_lt_of_le (hm ▸ h) hmc)
                · have hMm : M = m := hEq.trans hm.symm
                  rcases lt_or_eq_of_le hmc with h | h
                  · exact Or.inl (hMm ▸ h)
                  · have hbc : b < i := hblt i (List.mem_cons_self i t)
                    exact Or.inr ⟨hMm.trans h, le_of_lt (lt_of_le_of_lt hBb hbc)⟩
              · exact h4 _ (Or.inr ⟨hit, hiv⟩)

lemma findNearestAux_none_spec (d : ℕ → ℕ → ℚ) (cur : ℕ) (visited : Finset ℕ) :
    ∀ (L : List ℕ), L.Pairwise (· < ·) → ∀ (M : ℚ) (B : ℕ),
      findNearestAux d cur visited L none = some (M, B) →
      B ∈ L ∧ B ∉ visited ∧ M = d cur B ∧
        ∀ i ∈ L, i ∉ visited → M < d cur i ∨ (M = d cur i ∧ B ≤ i) := by
  intro L
  induction L with
  | nil => intro _ M B h; cases h
  | cons a t ih =>
      intro hpw M B h
      obtain ⟨hat, ht⟩ := List.pairwise_cons.mp hpw
      by_cases ha : a ∈ visited
      · rw [show findNearestAux d cur visited (a :: t) none =
            findNearestAux d cur visited t none by simp [findNearestAux, ha]] at h
        obtain ⟨h1, h2, h3, h4⟩ := ih ht M B h
        refine ⟨List.mem_cons_of_mem a h1, h2, h3, ?_⟩
        intro i hi hiv
        rcases List.mem_cons.mp hi with rfl | hit
        · exact absurd ha hiv
        · exact h4 i hit hiv
      · rw [show findNearestAux d cur visited (a :: t) none =
            findNearestAux d cur visited t (some (d cur a, a)) by
              simp [findNearestAux, ha]] at h
        obtain ⟨M2, B2, heq, h1, h2, h3, h4⟩ :=
          findNearestAux_spec d cur visited t (d cur a) a ht hat ha rfl
        rw [heq] at h
        obtain ⟨hM, hB⟩ : M2 = M ∧ B2 = B := by
          constructor <;> [exact congrArg Prod.fst (Option.some.inj h);
            exact congrArg Prod.snd (Option.some.inj h)]
        subst hM; subst hB
        refine ⟨?_, h1, h2, ?_⟩
        · rcases h3 with rfl | h3
          · exact List.mem_cons_self _ _
          · exact List.mem_cons_of_mem a h3
        · intro i hi hiv
          rcases List.mem_cons.mp hi with rfl | hit
          · exact h4 i (Or.inl rfl)
          · exact h4 i (Or.inr ⟨hit, hiv⟩)

lemma find_nearest_point_spec (d : ℕ → ℕ → ℚ) (n : ℕ) (visited : Finset ℕ)
    (cur j : ℕ) (h : find_nearest_point d n visited cur = some j) :
    j < n ∧ j ∉ visited ∧ ∀ i, i < n → i ∉ visited →
      d cur j < d cur i ∨ (d cur j = d cur i ∧ j ≤ i) := by
  unfold find_nearest_point at h
  cases haux : findNearestAux d cur visited (List.range n) none with
  | none => rw [haux] at h; cases h
  | some p =>
      obtain ⟨M, B⟩ := p
      rw [haux] at h
      have hj : B = j := by simpa using h
      subst hj
      obtain ⟨h1, h2, h3, h4⟩ :=
        findNearestAux_none_spec d cur visited (List.range n)
          (List.pairwise_lt_range n) M B haux
      refine ⟨List.mem_range.mp h1, h2, fun i hi hiv => ?_⟩
      have := h4 i (List.mem_range.mpr hi) hiv
      rwa [h3] at this

lemma dro_find_nearest_point_spec (d : ℕ → ℕ → ℚ) (n : ℕ) (visited : Finset ℕ)
    (cur j : ℕ) (hn : 1 ≤ n) (h : dro_find_nearest_point d n visited cur = some j) :
    1 ≤ j ∧ j < n ∧ j ∉ visited ∧ ∀ i, 1 ≤ i → i < n → i ∉ visited →
      d cur j < d cur i ∨ (d cur j = d cur i ∧ j ≤ i) := by
  unfold dro_find_nearest_point at h
  cases haux : findNearestAux d cur visited (List.range' 1 (n - 1)) none with
  | none => rw [haux] at h; cases h
  | some p =>
      obtain ⟨M, B⟩ := p
      rw [haux] at h
      have hj : B = j := by simpa using h
      subst hj
      obtain ⟨h1, h2, h3, h4⟩ :=
        findNearestAux_none_spec d cur visited (List.range' 1 (n - 1))
          (List.pairwise_lt_range' 1 (n - 1)) M B haux
      obtain ⟨hj1, hj2⟩ := List.mem_range'_1.mp h1
      refine ⟨hj1, by omega, h2, fun i hi1 hi2 hiv => ?_⟩
      have := h4 i (List.mem_range'_1.mpr ⟨hi1, by omega⟩) hiv
      rwa [h3] at this

lemma find_nearest_point_isSome (d : ℕ → ℕ → ℚ) (n : ℕ) (visited : Finset ℕ)
    (cur : ℕ) (h : ∃ i, i < n ∧ i ∉ visited) :
    (find_nearest_point d n visited cur).isSome := by
  obtain ⟨i, hi, hiv⟩ := h
  unfold find_nearest_point
  have := findNearestAux_none_isSome d cur visited (List.range n)
    ⟨i, List.mem_range.mpr hi, hiv⟩
  cases haux : findNearestAux d cur visited (List.range n) none with
  | none => rw [haux] at this; cases this
  | some p => simp [haux]

lemma find_nearest_point_eq_none (d : ℕ → ℕ → ℚ) (n : ℕ) (visited : Finset ℕ)
    (cur : ℕ) (h : ∀ i, i < n → i ∈ visited) :
    find_nearest_point d n visited cur = none := by
  unfold find_nearest_point
  rw [findNearestAux_none_eq d cur visited (List.range n)
    fun i hi => h i (List.mem_range.mp hi)]
  rfl

lemma exists_unvisited (n : ℕ) (visited : Finset ℕ)
    (hc : visited.card < n) : ∃ i, i < n ∧ i ∉ visited := by
  by_contra hno
  push_neg at hno
  have hsub2 : Finset.range n ⊆ visited := fun i hi => hno i (Finset.mem_range.mp hi)
  have := Finset.card_le_card hsub2
  simp only [Finset.card_range] at this
  omega

lemma optimizeLoop_spec (d : ℕ → ℕ → ℚ) (n : ℕ) :
    ∀ (fuel : ℕ) (visited : Finset ℕ) (cur : ℕ), visited ⊆ Finset.range n →
      n ≤ visited.card + fuel →
      ∃ steps, optimizeLoop d n fuel visited cur = some steps ∧
        steps.length + visited.card = n ∧
        (steps.map StopInfo.idx).Nodup ∧
        (steps.map StopInfo.idx).toFinset = Finset.range n \ visited := by
  intro fuel
  induction fuel with
  | zero =>
      intro visited cur hsub hfuel
      have hcard : visited = Finset.range n :=
        Finset.eq_of_subset_of_card_le hsub (by simpa using hfuel)
      refine ⟨[], by simp [optimizeLoop, hcard], by simp [hcard], by simp, by simp [hcard]⟩
  | succ fuel ih =>
      intro visited cur hsub hfuel
      by_cases hc : visited.card < n
      · obtain ⟨j, hj⟩ := Option.isSome_iff_exists.mp
          (find_nearest_point_isSome d n visited cur (exists_unvisited n visited hc))
        obtain ⟨hjn, hjv, -⟩ := find_nearest_point_spec d n visited cur j hj
        have hsub2 : insert j visited ⊆ Finset.range n :=
          Finset.insert_subset (Finset.mem_range.mpr hjn) hsub
        have hcard2 : (insert j visited).card = visited.card + 1 :=
          Finset.card_insert_of_not_mem hjv
        obtain ⟨rest, hrest, hlen, hnd, hset⟩ := ih (insert j visited) j hsub2 (by omega)
        have heq : optimizeLoop d n (fuel + 1) visited cur = some
            ({ stop_number := (insert j visited).card - 1, idx := j, last_idx := cur,
               distance := d cur j, distance_from_hub := d 0 j,
               eta := calculate_eta (meters_to_km (d cur j)),
               remaining_stops := n - (insert j visited).card,
               remaining_parcels := n - (insert j visited).card } :: rest) := by
          simp [optimizeLoop, hc, hj, hrest]
        refine ⟨_, heq, ?_, ?_, ?_⟩
        · simp only [List.length_cons]
          omega
        · refine List.nodup_cons.mpr ⟨fun hmem => ?_, hnd⟩
          have := hset ▸ List.mem_toFinset.mpr hmem
          exact (Finset.mem_sdiff.mp this).2 (Finset.mem_insert_self j visited)
        · rw [List.map_cons, List.toFinset_cons, hset]
          ext a
          simp only [Finset.mem_insert, Finset.mem_sdiff, Finset.mem_range]
          constructor
          · rintro (rfl | ⟨h1, h2⟩)
            · exact ⟨hjn, hjv⟩
            · exact ⟨h1, fun ha => h2 (Or.inr ha)⟩
          · rintro ⟨h1, h2⟩
            by_cases haj : a = j
            · exact Or.inl haj
            · refine Or.inr ⟨h1, fun hh => ?_⟩
              rcases hh with rfl | hh
              · exact haj rfl
              · exact h2 hh
      · have hcard : visited = Finset.range n :=
          Finset.eq_of_subset_of_card_le hsub (by simp; omega)
        refine ⟨[], by simp [optimizeLoop, hc], by simp [hcard], by simp, by simp [hcard]⟩

lemma optimizeLoop_parcels (d : ℕ → ℕ → ℚ) (n : ℕ) :
    ∀ (fuel : ℕ) (visited : Finset ℕ) (cur : ℕ) (steps : List StopInfo),
      optimizeLoop d n fuel visited cur = some steps →
      ∀ s ∈ steps, s.remaining_parcels = s.remaining_stops := by
  intro fuel
  induction fuel with
  | zero =>
      intro visited cur steps h s hs
      by_cases hc : visited.card < n
      · simp [optimizeLoop, hc] at h
      · simp [optimizeLoop, hc] at h
        subst h
        cases hs
  | succ fuel ih =>
      intro visited cur steps h s hs
      by_cases hc : visited.card < n
      · cases hj : find_nearest_point d n visited cur with
        | none => simp [optimizeLoop, hc, hj] at h
        | some j =>
            cases hrest : optimizeLoop d n fuel (insert j visited) j with
            | none => simp [optimizeLoop, hc, hj, hrest] at h
            | some rest =>
                simp only [optimizeLoop, hc, if_true, hj, hrest] at h
                injection h with h2
                subst h2
                rcases List.mem_cons.mp hs with rfl | hs2
                · rfl
                · exact ih (insert j visited) j rest hrest s hs2
      · simp [optimizeLoop, hc] at h
        subst h
        cases hs

lemma visitedAfter_mono (d : ℕ → ℕ → ℚ) (n k : ℕ) :
    visitedAfter d n k ⊆ visitedAfter d n (k + 1) := by
  rw [visitedAfter, visitedAfter, Function.iterate_succ_apply']
  cases h : find_nearest_point d n ((greedyIter d n)^[k] ({0}, 0)).1
      ((greedyIter d n)^[k] ({0}, 0)).2 with
  | none => simp [greedyIter, h]
  | some j =>
      simp only [greedyIter, h]
      exact Finset.subset_insert _ _

lemma visitedAfter_invariant (d : ℕ → ℕ → ℚ) (n : ℕ) (hn : 1 ≤ n) :
    ∀ k, k + 1 ≤ n → visitedAfter d n k ⊆ Finset.range n ∧
      (visitedAfter d n k).card = k + 1 := by
  intro k
  induction k with
  | zero =>
      intro _
      constructor
      · intro a ha
        have : a = 0 := by simpa [visitedAfter] using ha
        subst this
        exact Finset.mem_range.mpr (by omega)
      · simp [visitedAfter]
  | succ k ih =>
      intro hk
      obtain ⟨hsub, hcard⟩ := ih (by omega)
      have hc : (visitedAfter d n k).card < n := by omega
      obtain ⟨j, hj⟩ := Option.isSome_iff_exists.mp
        (find_nearest_point_isSome d n (visitedAfter d n k)
          ((greedyIter d n)^[k] ({0}, 0)).2 (exists_unvisited n _ hc))
      obtain ⟨hjn, hjv, -⟩ := find_nearest_point_spec d n _ _ j hj
      have hstep : visitedAfter d n (k + 1) = insert j (visitedAfter d n k) := by
        rw [visitedAfter, Function.iterate_succ_apply', greedyIter]
        rw [show find_nearest_point d n ((greedyIter d n)^[k] ({0}, 0)).1
            ((greedyIter d n)^[k] ({0}, 0)).2 = some j from hj]
        rfl
      constructor
      · rw [hstep]
        exact Finset.insert_subset (Finset.mem_range.mpr hjn) hsub
      · rw [hstep, Finset.card_insert_of_not_mem hjv, hcard]

lemma visitedAfter_last (d : ℕ → ℕ → ℚ) (n : ℕ) (hn : 1 ≤ n) :
    visitedAfter d n (n - 1) = Finset.range n := by
  obtain ⟨hsub, hcard⟩ := visitedAfter_invariant d n hn (n - 1) (by omega)
  refine Finset.eq_of_subset_of_card_le hsub ?_
  rw [hcard, Finset.card_range]
  omega

lemma range'_one_toFinset (n : ℕ) (hn : 1 ≤ n) :
    (List.range' 1 (n - 1)).toFinset = Finset.range n \ {0} := by
  ext a
  simp only [List.mem_toFinset, List.mem_range'_1, Finset.mem_sdiff, Finset.mem_range,
    Finset.mem_singleton]
  omega

lemma optimize_route_spec (d : ℕ → ℕ → ℚ) (n : ℕ) (hn : 1 ≤ n) :
    ∃ steps, optimize_route d n = some steps ∧ steps.length = n - 1 ∧
      (steps.map StopInfo.idx).Nodup ∧
      (steps.map StopInfo.idx).Perm (List.range' 1 (n - 1)) ∧
      insert 0 (steps.map StopInfo.idx).toFinset = Finset.range n := by
  have h0 : ({0} : Finset ℕ) ⊆ Finset.range n := by
    intro a ha
    simp only [Finset.mem_singleton] at ha
    subst ha
    exact Finset.mem_range.mpr (by omega)
  obtain ⟨steps, heq, hlen, hnd, hset⟩ :=
    optimizeLoop_spec d n n {0} 0 h0 (by rw [Finset.card_singleton]; omega)
  refine ⟨steps, heq, by rw [Finset.card_singleton] at hlen; omega, hnd, ?_, ?_⟩
  · refine List.perm_of_nodup_nodup_toFinset_eq hnd (List.nodup_range' ..) ?_
    rw [hset, range'_one_toFinset n hn]
  · rw [hset]
    ext a
    simp only [Finset.mem_insert, Finset.mem_sdiff, Finset.mem_range, Finset.mem_singleton]
    constructor
    · rintro (rfl | ⟨h1, -⟩)
      · omega
      · exact h1
    · intro h1
      by_cases ha : a = 0
      · exact Or.inl ha
      · exact Or.inr ⟨h1, ha⟩

lemma dro_optimize_route_done (d : ℕ → ℕ → ℚ) (n : ℕ) (st : Finset ℕ × ℕ)
    (h : n ≤ st.1.card) : (dro_optimize_route d n st).1 = some [] := by
  unfold dro_optimize_route
  cases n with
  | zero => simp [dro_optimizeLoop]
  | succ m => simp [dro_optimizeLoop, Nat.not_lt.mpr h]

lemma compareBody_eq_error (o : RouteOracle) (hub : Coord) (stops : List Coord) :
    ∃ e, compareBody o hub stops = .error e := by
  unfold compareBody get_nearest_neighbor_route_detailed
  cases h : nnLoop o stops.length hub stops with
  | error e => exact ⟨e, by simp [h, Except.map]⟩
  | ok l =>
      exact ⟨"TypeError: NoneType object is not iterable",
        by simp [h, Except.map, calculate_metrics]⟩

lemma compare_methods_eq_nil (o : RouteOracle) (hub : Coord) (stops : List Coord) :
    compare_methods o hub stops = [] := by
  obtain ⟨e, he⟩ := compareBody_eq_error o hub stops
  unfold compare_methods
  rw [he]

lemma foldl_write_block_outside (b : Backend) (coords : List Coord) (r c : ℕ) :
    ∀ (L : List ℕ) (m0 : ℕ → ℕ → ℚ),
      (∀ i ∈ L, ¬ (i ≤ r ∧ r < i + ((coords.drop i).take max_batch).length ∧
          i ≤ c ∧ c < i + ((coords.drop i).take max_batch).length)) →
      (L.foldl (fun m i => write_block b coords i m) m0) r c = m0 r c := by
  intro L
  induction L with
  | nil => intro m0 _; rfl
  | cons a t ih =>
      intro m0 h
      rw [List.foldl_cons,
        ih (write_block b coords a m0) fun i hi => h i (List.mem_cons_of_mem a hi)]
      simp only [write_block]
      rw [if_neg (h a (List.mem_cons_self a t))]

lemma process_large_matrix_outside (b : Backend) (coords : List Coord) (r c : ℕ)
    (h : in_fetched_block coords.length r c = false) :
    process_large_matrix b coords r c = 0 := by
  unfold process_large_matrix
  apply foldl_write_block_outside
  intro i hi hcond
  have hlen : ((coords.drop i).take max_batch).length =
      min max_batch (coords.length - i) := by
    simp [List.length_take, List.length_drop]
  rw [hlen] at hcond
  have : in_fetched_block coords.length r c = true := by
    unfold in_fetched_block
    refine List.any_eq_true.mpr ⟨i, hi, ?_⟩
    simp only [Bool.and_eq_true, decide_eq_true_eq]
    exact ⟨⟨⟨hcond.1, hcond.2.1⟩, hcond.2.2.1⟩, hcond.2.2.2⟩
  rw [this] at h
  cases h

/-- Distance table (meters) with a tie: indices 1 and 2 both lie 5 m from
everywhere. -/
def exDtie : ℕ → ℕ → ℚ := fun _ j => if j = 1 then 5 else if j = 2 then 5 else 9

/-- Distance table where index 2 is nearest from everywhere. -/
def exD6 : ℕ → ℕ → ℚ := fun _ j => if j = 2 then 1 else 5

/-- Constant distance table. -/
def exD7 : ℕ → ℕ → ℚ := fun _ _ => 5

/-- Zero distance table (the empty-stop-set run never reads it). -/
def exD8 : ℕ → ℕ → ℚ := fun _ _ => 0

/-- Constant distance table of 500 m legs. -/
def exD10 : ℕ → ℕ → ℚ := fun _ _ => 500

/-- The single route record emitted by the src/src greedy run on one stop with
all distances 500 m. -/
def exStep10 : StopInfo :=
  { stop_number := 1
    idx := 1
    last_idx := 0
    distance := 500
    distance_from_hub := 500
    eta := calculate_eta (meters_to_km 500)
    remaining_stops := 0
    remaining_parcels := 0 }

/-- Point-to-point query oracle that succeeds with 5 m. -/
def exQueryOk : ℕ → ℕ → Except String ℚ := fun _ _ => .ok 5

/-- Point-to-point query oracle that always fails. -/
def exQueryFail : ℕ → ℕ → Except String ℚ := fun _ _ => .error "ConnectionError"

/-- Precomputed matrix whose every cell is 3 m. -/
def exMatrix : ℕ → ℕ → ℚ := fun _ _ => 3

/-- Route-details oracle that reports 100 m for every pair. -/
def exOracle : RouteOracle := fun _ _ => .ok 100

/-- Example hub for the validator. -/
def exHub : Coord := ((0 : ℚ), (0 : ℚ))

/-- Two example stops for the validator. -/
def exStops : List Coord := [((1 : ℚ), (0 : ℚ)), ((2 : ℚ), (0 : ℚ))]

/-- Matrix backend whose true value for every pair is 7, on both metrics. -/
def exB2 : Backend := fun locs _ =>
  { durations := locs.map fun _ => locs.map fun _ => 7
    distances := locs.map fun _ => locs.map fun _ => 7 }

/-- Matrix backend whose duration and distance tables differ: travel times of
60 (seconds) against travel distances of 500 (meters). -/
def exB3 : Backend := fun _ _ =>
  { durations := [[0, 60], [60, 0]]
    distances := [[0, 500], [500, 0]] }

/-- 46 in-bounds coordinates — one more than the 45-wide batch limit. -/
def exCoords46 : List Coord := List.replicate 46 ((125 : ℚ), (7 : ℚ))

/-- Two in-bounds coordinates. -/
def exCoords2 : List Coord := [((125 : ℚ), (7 : ℚ)), ((126 : ℚ), (8 : ℚ))]

lemma exCoords46_valid : validate_coordinates exCoords46 = true := by
  unfold validate_coordinates exCoords46
  rw [List.all_eq_true]
  intro x hx
  rw [List.eq_of_mem_replicate hx]
  simp only [valid_coord, decide_eq_true_eq]
  norm_num

lemma exCoords2_valid : validate_coordinates exCoords2 = true := by
  unfold validate_coordinates exCoords2
  rw [List.all_eq_true]
  intro x hx
  rcases List.mem_cons.mp hx with rfl | hx
  · simp only [valid_coord, decide_eq_true_eq]
    norm_num
  · rcases List.mem_cons.mp hx with rfl | hx
    · simp only [valid_coord, decide_eq_true_eq]
      norm_num
    · cases hx

lemma get_distance_matrix_exB2 :
    get_distance_matrix exB2 exCoords46 = .ok (process_large_matrix exB2 exCoords46) := by
  unfold get_distance_matrix
  rw [if_neg (by rw [exCoords46_valid]; simp), if_neg (by decide)]

lemma get_distance_matrix_exB3 :
    get_distance_matrix exB3 exCoords2 =
      .ok (fun r c => ((request_matrix exB3 exCoords2).getD r []).getD c 0) := by
  unfold get_distance_matrix
  rw [if_neg (by rw [exCoords2_valid]; simp), if_pos (by decide)]

/-- C1 (counterexample).  The claim says `compare_methods` constructs 2-3
competing visiting orders and returns one scored row per constructed method,
including the exact-solver reference.  At the concrete non-empty stop set
`exStops` (two stops) with a total oracle, `compare_methods` returns the empty
list — zero rows, so in particular no exact-solver row — refuting the claim. -/
theorem compare_methods_rows_cex :
    compare_methods exOracle exHub exStops = [] ∧ exStops.length = 2 :=
  ⟨compare_methods_eq_nil exOracle exHub exStops, rfl⟩

/-- C1 (amended).  `compare_methods` analyses only the one nearest-neighbor
method, and because `get_nearest_neighbor_route_detailed` ends without a
`return` statement (returning `None`), the subsequent `calculate_metrics` call
raises and the surrounding `except` makes `compare_methods` return the empty
list on every input; no scored rows — and hence no `pct_from_optimal`
comparison against any exact-solver baseline — are ever produced. -/
theorem compare_methods_single_method_empty :
    ∀ (o : RouteOracle) (hub : Coord) (stops : List Coord),
      compare_methods o hub stops = [] :=
  fun o hub stops => compare_methods_eq_nil o hub stops

/-- C2 (counterexample).  The claim says every cell outside the fetched
block-diagonal squares is a distinguishable "not computed" value, never the
numeric value 0.  With 46 in-bounds coordinates (one more than the batch cap
45), cell (0, 45) lies outside both fetched blocks and the returned matrix
holds the plain number 0 there, while the backend's true value for that pair
is 7 — an unfetched cell is exactly the numeric 0 and is indistinguishable
from a true zero distance. -/
theorem unfetched_cell_is_zero_cex :
    (get_distance_matrix exB2 exCoords46).map (fun m => m 0 45) = .ok 0 ∧
    request_matrix exB2 [((125 : ℚ), (7 : ℚ)), ((125 : ℚ), (7 : ℚ))] = [[7, 7], [7, 7]] ∧
    (0 : ℚ) ≠ 7 := by
  refine ⟨?_, rfl, by decide⟩
  rw [get_distance_matrix_exB2]
  have h := process_large_matrix_outside exB2 exCoords46 0 45 (by decide)
  simp [Except.map, h]

/-- C2 (amended).  For every coordinate list longer than the batch cap, every
cell of the matrix returned by `get_distance_matrix` that lies outside the
fetched block-diagonal squares holds the numeric value 0 (the `np.zeros`
initialisation), not a distinguishable "not computed" marker. -/
theorem unfetched_cells_hold_zero :
    ∀ (b : Backend) (coords : List Coord) (r c : ℕ),
      validate_coordinates coords = true → max_batch < coords.length →
      in_fetched_block coords.length r c = false →
      ∃ m, get_distance_matrix b coords = .ok m ∧ m r c = 0 := by
  intro b coords r c hval hlen hout
  refine ⟨process_large_matrix b coords, ?_, process_large_matrix_outside b coords r c hout⟩
  unfold get_distance_matrix
  rw [if_neg (by rw [hval]; simp), if_neg (by omega)]

/-- C2 (witness for the amended theorem): 46 identical in-bounds coordinates,
cell (0, 45). -/
theorem unfetched_cells_hold_zero_witness :
    ∃ m, get_distance_matrix exB2 exCoords46 = .ok m ∧ m 0 45 = 0 :=
  unfetched_cells_hold_zero exB2 exCoords46 0 45 exCoords46_valid (by decide) (by decide)

/-- C3 (code bug, evaluated at the failing input).  The claim — and the
function's own name and docstring ("Calculate distance matrix between all
points") — say the matrix cells are travel distances in meters, yet
`_request_matrix` requests `metrics=['duration']` and returns the response's
`durations` table.  With a backend whose duration table (60) differs from its
distance table (500), the matrix returned by `get_distance_matrix` holds the
duration value 60 at cell (0, 1), not the distance value 500. -/
theorem matrix_cells_hold_durations :
    (get_distance_matrix exB3 exCoords2).map (fun m => m 0 1) = .ok 60 ∧
    (exB3 exCoords2 ["duration"]).distances = [[0, 500], [500, 0]] ∧
    (60 : ℚ) ≠ 500 := by
  refine ⟨?_, rfl, by decide⟩
  rw [get_distance_matrix_exB3]
  rfl

/-- C4 (counterexample).  The claim says the distance lookup tries the
precomputed matrix cell first and only falls back to a live point-to-point
query.  At a state where the matrix is available (cell value 3) and the live
query succeeds with 5, `get_route_distance` returns 5 — the live query's
value, not the matrix cell's — so the matrix is not consulted first. -/
theorem lookup_order_cex :
    get_route_distance exQueryOk (some exMatrix) 0 1 = .ok 5 ∧
    exMatrix 0 1 = 3 ∧ (5 : ℚ) ≠ 3 :=
  ⟨rfl, rfl, by decide⟩

/-- C4 (amended).  `get_route_distance` tries the live point-to-point query
(with its result extraction) first; on any exception there it falls back to
the precomputed matrix cell; if the matrix is absent (`None`), the subscript
in the handler raises and the error propagates.  There is no further
last-known-value stage. -/
theorem lookup_order_query_first :
    ∀ (q : ℕ → ℕ → Except String ℚ) (mx : Option (ℕ → ℕ → ℚ)) (i j : ℕ),
      (∀ v, q i j = .ok v → get_route_distance q mx i j = .ok v) ∧
      (∀ e m, q i j = .error e → mx = some m →
        get_route_distance q mx i j = .ok (m i j)) ∧
      (∀ e, q i j = .error e → mx = none →
        get_route_distance q mx i j =
          .error "TypeError: NoneType object is not subscriptable") := by
  intro q mx i j
  refine ⟨?_, ?_, ?_⟩
  · intro v hv
    unfold get_route_distance
    rw [hv]
  · intro e m he hm
    unfold get_route_distance
    rw [he, hm]
  · intro e he hm
    unfold get_route_distance
    rw [he, hm]

/-- C4 (witness for the amended theorem): all three stages at concrete
inputs. -/
theorem lookup_order_query_first_witness :
    get_route_distance exQueryOk (some exMatrix) 0 1 = .ok 5 ∧
    get_route_distance exQueryFail (some exMatrix) 0 1 = .ok (exMatrix 0 1) ∧
    get_route_distance exQueryFail none 0 1 =
      .error "TypeError: NoneType object is not subscriptable" :=
  ⟨(lookup_order_query_first exQueryOk (some exMatrix) 0 1).1 5 rfl,
   (lookup_order_query_first exQueryFail (some exMatrix) 0 1).2.1 "ConnectionError" exMatrix rfl rfl,
   (lookup_order_query_first exQueryFail none 0 1).2.2 "ConnectionError" rfl rfl⟩

/-- C5 (confirmed).  In both revisions, `find_nearest_point` scans the
unvisited indices in ascending order and replaces the incumbent only on a
strictly smaller distance, so the returned index is an unvisited in-range
index of minimal distance and, among equal-distance candidates, the lowest
one; being a pure function of the distance table and the state, the selection
is deterministic. -/
theorem greedy_tie_break_lowest_index :
    (∀ (d : ℕ → ℕ → ℚ) (n : ℕ) (visited : Finset ℕ) (cur j : ℕ),
      find_nearest_point d n visited cur = some j →
      j < n ∧ j ∉ visited ∧ ∀ i, i < n → i ∉ visited →
        d cur j < d cur i ∨ (d cur j = d cur i ∧ j ≤ i)) ∧
    (∀ (d : ℕ → ℕ → ℚ) (n : ℕ) (visited : Finset ℕ) (cur j : ℕ), 1 ≤ n →
      dro_find_nearest_point d n visited cur = some j →
      1 ≤ j ∧ j < n ∧ j ∉ visited ∧ ∀ i, 1 ≤ i → i < n → i ∉ visited →
        d cur j < d cur i ∨ (d cur j = d cur i ∧ j ≤ i)) :=
  ⟨find_nearest_point_spec,
   fun d n v cur j hn h => dro_find_nearest_point_spec d n v cur j hn h⟩

/-- C5 (witness): a tie between indices 1 and 2 at distance 5 resolves to
index 1. -/
theorem greedy_tie_break_lowest_index_witness :
    1 < 3 ∧ 1 ∉ ({0} : Finset ℕ) ∧ ∀ i, i < 3 → i ∉ ({0} : Finset ℕ) →
      exDtie 0 1 < exDtie 0 i ∨ (exDtie 0 1 = exDtie 0 i ∧ 1 ≤ i) :=
  greedy_tie_break_lowest_index.1 exDtie 3 {0} 0 1 (by decide)

/-- C6 (confirmed).  For every stop set of size N ≥ 1 (so `n = N + 1` points
including the hub), `optimize_route` succeeds and the emitted stop-index
sequence is a permutation of the N input stop indices 1..N (each visited
exactly once, and together with the hub covering all points); the `visited`
set grows monotonically by exactly one element per iteration from the
singleton `{0}` (the hub, size 1) to all `N + 1` points, with no element ever
removed. -/
theorem optimize_route_perm_visited_monotone :
    ∀ (d : ℕ → ℕ → ℚ) (N : ℕ), 1 ≤ N →
      (∃ steps, optimize_route d (N + 1) = some steps ∧ steps.length = N ∧
        (steps.map StopInfo.idx).Perm (List.range' 1 N) ∧
        insert 0 (steps.map StopInfo.idx).toFinset = Finset.range (N + 1)) ∧
      visitedAfter d (N + 1) 0 = {0} ∧
      (∀ k, k ≤ N → (visitedAfter d (N + 1) k).card = k + 1) ∧
      (∀ k, visitedAfter d (N + 1) k ⊆ visitedAfter d (N + 1) (k + 1)) ∧
      visitedAfter d (N + 1) N = Finset.range (N + 1) := by
  intro d N hN
  have hn : 1 ≤ N + 1 := by omega
  have hNs : N + 1 - 1 = N := by omega
  obtain ⟨steps, h1, h2, h3, h4, h5⟩ := optimize_route_spec d (N + 1) hn
  refine ⟨⟨steps, h1, by omega, ?_, h5⟩, rfl, ?_, fun k => visitedAfter_mono d (N + 1) k, ?_⟩
  · rwa [hNs] at h4
  · intro k hk
    exact (visitedAfter_invariant d (N + 1) hn k (by omega)).2
  · have := visitedAfter_last d (N + 1) hn
    rwa [hNs] at this

/-- C6 (witness): the concrete two-stop run with distance table `exD6`. -/
theorem optimize_route_perm_visited_monotone_witness :
    (∃ steps, optimize_route exD6 3 = some steps ∧ steps.length = 2 ∧
      (steps.map StopInfo.idx).Perm (List.range' 1 2) ∧
      insert 0 (steps.map StopInfo.idx).toFinset = Finset.range 3) ∧
    visitedAfter exD6 3 0 = {0} ∧
    (∀ k, k ≤ 2 → (visitedAfter exD6 3 k).card = k + 1) ∧
    (∀ k, visitedAfter exD6 3 k ⊆ visitedAfter exD6 3 (k + 1)) ∧
    visitedAfter exD6 3 2 = Finset.range 3 :=
  optimize_route_perm_visited_monotone exD6 2 (by decide)

/-- C7 (counterexample).  The claim says a second `optimize_route` call on the
same builder reproduces the same stop sequence.  In the
delivery-route-optimizer revision the builder's `visited` set persists across
calls: from the fresh state the first call on two points returns the sequence
`[1]`, and a second call on the state it leaves behind returns the empty
sequence — not the same sequence. -/
theorem rerun_second_call_differs_cex :
    (dro_optimize_route exD7 2 ({0}, 0)).1 = some [1] ∧
    (dro_optimize_route exD7 2 ((dro_optimize_route exD7 2 ({0}, 0)).2)).1 = some [] ∧
    (some [1] : Option (List ℕ)) ≠ some [] := by
  refine ⟨by decide, by decide, by decide⟩

/-- C7 (amended).  Re-running reproduces the identical sequence only in the
src/src revision, whose `optimize_route` resets `visited = {0}` and
`current = 0` at entry, making the call's result independent of the builder
state; in the delivery-route-optimizer revision the persisted `visited` set
makes any call on a builder whose visited set already covers all points
return the empty sequence. -/
theorem rerun_reset_vs_persistent_state :
    (∀ (d : ℕ → ℕ → ℚ) (n : ℕ) (v1 : Finset ℕ) (c1 : ℕ) (v2 : Finset ℕ) (c2 : ℕ),
      src_optimize_route_call d n v1 c1 = src_optimize_route_call d n v2 c2) ∧
    (∀ (d : ℕ → ℕ → ℚ) (n : ℕ) (st : Finset ℕ × ℕ), n ≤ st.1.card →
      (dro_optimize_route d n st).1 = some []) :=
  ⟨fun _ _ _ _ _ _ => rfl, dro_optimize_route_done⟩

/-- C7 (witness for the amended theorem). -/
theorem rerun_reset_vs_persistent_state_witness :
    src_optimize_route_call exD7 2 {0} 0 = src_optimize_route_call exD7 2 {0, 1} 1 ∧
    (dro_optimize_route exD7 2 ({0, 1}, 1)).1 = some [] :=
  ⟨rerun_reset_vs_persistent_state.1 exD7 2 {0} 0 {0, 1} 1,
   rerun_reset_vs_persistent_state.2 exD7 2 ({0, 1}, 1) (by decide)⟩

/-- C8 (counterexample).  The claim says running the builder on an empty stop
set raises `OptimizationError`.  With an empty stop set (`n = 1`: the hub is
the only point) the `while` guard is false at once, the loop body — and hence
`find_nearest_point` — never runs, and `optimize_route` returns an empty route
list instead of raising. -/
theorem optimize_route_empty_input_cex :
    optimize_route exD8 1 = some [] ∧ (some ([] : List StopInfo)) ≠ none :=
  ⟨rfl, by simp⟩

/-- C8 (amended).  `find_nearest_point` raises (`ValueError`, returned as
`none`) exactly when no unvisited candidate exists among the scanned indices,
and the greedy loop does terminate when all points are visited; but on an
empty stop set the loop body never executes, so `optimize_route` returns an
empty route list rather than raising. -/
theorem greedy_no_candidate_and_empty_input :
    (∀ (d : ℕ → ℕ → ℚ) (n : ℕ) (visited : Finset ℕ) (cur : ℕ),
      (∀ i, i < n → i ∈ visited) → find_nearest_point d n visited cur = none) ∧
    (∀ d : ℕ → ℕ → ℚ, optimize_route d 1 = some []) :=
  ⟨find_nearest_point_eq_none, fun _ => rfl⟩

/-- C8 (witness for the amended theorem). -/
theorem greedy_no_candidate_and_empty_input_witness :
    find_nearest_point exD8 2 {0, 1} 0 = none ∧ optimize_route exD8 1 = some [] :=
  ⟨greedy_no_candidate_and_empty_input.1 exD8 2 {0, 1} 0 (by decide),
   greedy_no_candidate_and_empty_input.2 exD8⟩

/-- C9 (confirmed).  Validation-path errors are non-fatal: whenever the body
of `compare_methods` raises, the `except` handler returns the empty result
list instead of propagating the exception, and every row of any result carries
`"N/A"` in the `pct_from_optimal` column (no code path ever sets
`diff_from_optimal`, and the exact solver is never consulted), so benchmarking
never blocks delivery of the primary route. -/
theorem validation_errors_nonfatal :
    ∀ (o : RouteOracle) (hub : Coord) (stops : List Coord),
      (∀ e, compareBody o hub stops = .error e → compare_methods o hub stops = []) ∧
      (compare_methods o hub stops).all
        (fun r => r.pct_from_optimal == "N/A") = true := by
  intro o hub stops
  constructor
  · intro e he
    unfold compare_methods
    rw [he]
  · rw [compare_methods_eq_nil]
    rfl

/-- C9 (witness): concrete two-stop input whose body raises a `TypeError`. -/
theorem validation_errors_nonfatal_witness :
    compare_methods exOracle exHub exStops = [] ∧
    (compare_methods exOracle exHub exStops).all
      (fun r => r.pct_from_optimal == "N/A") = true :=
  ⟨(validation_errors_nonfatal exOracle exHub exStops).1
      "TypeError: NoneType object is not iterable" (by rfl),
   (validation_errors_nonfatal exOracle exHub exStops).2⟩

/-- C10 (confirmed).  Every route record emitted by the src/src revision's
`optimize_route` has `remaining_parcels` equal to `remaining_stops`: both are
computed as `len(all_coordinates) - len(visited)`, and no per-stop parcel
count is ever read. -/
theorem remaining_parcels_eq_remaining_stops :
    ∀ (d : ℕ → ℕ → ℚ) (n : ℕ) (steps : List StopInfo),
      optimize_route d n = some steps →
      ∀ s ∈ steps, s.remaining_parcels = s.remaining_stops :=
  fun d n steps h => optimizeLoop_parcels d n n {0} 0 steps h

/-- C10 (witness): the one-stop run with 500 m legs emits exactly `exStep10`,
whose two remaining counters agree. -/
theorem remaining_parcels_eq_remaining_stops_witness :
    exStep10.remaining_parcels = exStep10.remaining_stops :=
  remaining_parcels_eq_remaining_stops exD10 2 [exStep10] (by rfl) exStep10
    (List.mem_singleton.mpr rfl)

example : find_nearest_point (fun _ j => if j = 2 then (1 : ℚ) else 5) 3 {0} 0 = some 2 := by
  decide

example : find_nearest_point (fun _ _ => (5 : ℚ)) 3 {0} 0 = some 1 := by decide

example : optimize_route (fun _ _ => (5 : ℚ)) 1 = some [] := by decide

example :
    (optimize_route (fun _ j => if j = 2 then (1 : ℚ) else 5) 3).map
      (List.map StopInfo.idx) = some [2, 1] := by decide

example :
    (dro_optimize_route (fun _ _ => (5 : ℚ)) 2 ({0}, 0)).1 = some [1] := by decide
